import Mathlib

/-!
Verification development for the `taxjar` command-line client
(source files `src/config.js`, `src/api.js`, `src/index.js`).

The JavaScript source is shallowly embedded: JS values flowing through
request bodies, query strings and rendered output are modelled by the
inductive `JsValue`.  JS numbers are modelled exactly as finite decimals
(`JsNum`: an integer mantissa and a power-of-ten scale, kept canonical)
plus explicit `nan` / `inf` constructors; every numeric value the source
and the claims exercise is a short decimal literal, for which this model
and IEEE doubles with shortest-round-trip printing agree observably.
Each CLI action is modelled as a pure function from its parsed option
record and the remote service's behaviour to an `ActionOutcome`
recording the HTTP requests issued, the console lines printed (chalk
colour codes and the ora spinner animation are presentation-only and
are stripped; the spinner's succeed/fail texts are kept as output
lines), and the process exit code.
-/

/-- A JS number as an exact decimal `mant / 10 ^ exp`.  Values built by
the smart constructor `JsNum.canon` are canonical (`exp = 0` or the
mantissa is not divisible by ten), so structural equality coincides with
numeric equality. -/
structure JsNum where
  mant : Int
  exp : Nat
deriving DecidableEq

/-- Strip factors of ten from `(m, e)` until the exponent is exhausted
or the mantissa is no longer divisible by ten. -/
def canonAux : Int → Nat → Int × Nat
  | m, 0 => (m, 0)
  | m, e + 1 => if m % 10 = 0 then canonAux (m / 10) e else (m, e + 1)

/-- Canonical decimal with value `m / 10 ^ e`. -/
def JsNum.canon (m : Int) (e : Nat) : JsNum :=
  let p := canonAux m e
  ⟨p.1, p.2⟩

/-- The JS number denoted by an integer. -/
def JsNum.ofInt (m : Int) : JsNum := ⟨m, 0⟩

/-- Exact product of two decimals (models JS `*` on the exactly
representable values the source manipulates). -/
def JsNum.mul (a b : JsNum) : JsNum := JsNum.canon (a.mant * b.mant) (a.exp + b.exp)

/-- Decimal digits of `m` with a point inserted `e` places from the
right (no trailing-zero trimming; canonical inputs have none). -/
def renderPosDec (m : Nat) (e : Nat) : String :=
  let s := Nat.repr m
  if e = 0 then s
  else if s.length ≤ e then "0." ++ String.mk (List.replicate (e - s.length) '0') ++ s
  else String.mk (s.data.take (s.length - e)) ++ "." ++ String.mk (s.data.drop (s.length - e))

/-- JS `String(n)` for a finite number: shortest decimal form (exact for
the canonical decimals of this model; the exponential notation JS uses
beyond 1e21 is outside the values exercised). -/
def JsNum.render (n : JsNum) : String :=
  if n.mant < 0 then "-" ++ renderPosDec (-n.mant).toNat n.exp
  else renderPosDec n.mant.toNat n.exp

/-- Digits of `m` rendered with exactly `d` decimal places. -/
def renderFixed (m : Nat) (d : Nat) : String :=
  if d = 0 then Nat.repr m
  else
    let s := Nat.repr m
    let s := if s.length ≤ d then String.mk (List.replicate (d + 1 - s.length) '0') ++ s else s
    String.mk (s.data.take (s.length - d)) ++ "." ++ String.mk (s.data.drop (s.length - d))

/-- JS `Number.prototype.toFixed(d)`: exactly `d` decimal places,
rounding half away from zero (exact on this model's decimals). -/
def JsNum.toFixed (n : JsNum) (d : Nat) : String :=
  let p : Nat := n.mant.natAbs
  let scaled : Nat :=
    if n.exp ≤ d then p * 10 ^ (d - n.exp)
    else (p + 10 ^ (n.exp - d) / 2) / 10 ^ (n.exp - d)
  (if n.mant < 0 ∧ scaled ≠ 0 then "-" else "") ++ renderFixed scaled d

/-- A JavaScript value, as needed to model the CLI's request bodies,
responses and rendering.  `nan` models NaN, `inf` models ±Infinity,
`undefined` mirrors its JS namesake. -/
inductive JsValue where
  | str (s : String)
  | num (q : JsNum)
  | nan
  | inf (neg : Bool)
  | bool (b : Bool)
  | null
  | undefined
  | obj (fields : List (String × JsValue))
  | arr (elems : List JsValue)

/-- JS truthiness: `''`, `0`, `NaN`, `false`, `null`, `undefined` are falsy. -/
def jsTruthy : JsValue → Bool
  | .str s => !(s == "")
  | .num q => !(q.mant == 0)
  | .nan => false
  | .inf _ => true
  | .bool b => b
  | .null => false
  | .undefined => false
  | .obj _ => true
  | .arr _ => true

/-- JS property access `v?.[k]` / `v[k]`: on an object, the value of the
first field named `k` (the embedding constructs objects without
duplicate keys); `undefined` on a missing key or a non-object. -/
def jsGet (v : JsValue) (k : String) : JsValue :=
  match v with
  | .obj fs =>
    match fs.find? (fun p => p.1 == k) with
    | some p => p.2
    | none => .undefined
  | _ => .undefined

/-- JS `a || b`: returns `a` if truthy, else `b`. -/
def jsOrV (a b : JsValue) : JsValue := if jsTruthy a then a else b

/-- JS `a ?? ''`: replaces `null`/`undefined` by the empty string. -/
def jsNullishEmpty (v : JsValue) : JsValue :=
  match v with
  | .null => .str ""
  | .undefined => .str ""
  | v => v

/-- The elements of a JS array value (the actions reach `.length` and
iteration only on values the remote returns as arrays). -/
def jsElems : JsValue → List JsValue
  | .arr xs => xs
  | _ => []

/- ── JS string and number primitives ───────────────────────────────── -/

/-- Whitespace skipped by `parseFloat` / `Number`. -/
def wsChar (c : Char) : Bool :=
  c = ' ' || c = '\t' || c = '\n' || c = '\r' || c = '\x0b' || c = '\x0c'

/-- Split a character list into its leading run of decimal digits and the rest. -/
def spanDigits : List Char → List Char × List Char
  | [] => ([], [])
  | c :: cs =>
    if c.isDigit then
      let p := spanDigits cs
      (c :: p.1, p.2)
    else ([], c :: cs)

/-- The natural number denoted by a list of decimal digit characters. -/
def digitsToNat (ds : List Char) : ℕ :=
  ds.foldl (fun a c => 10 * a + (c.toNat - 48)) 0

/-- Apply an optional exponent part (`e`/`E`, optional sign, digits) to a
parsed mantissa/scale pair, as `parseFloat` does; an `e` not followed by
a digit is not consumed. -/
def applyExp (m : Int × Nat) (cs : List Char) : (Int × Nat) × List Char :=
  match cs with
  | [] => (m, [])
  | c :: rest =>
    if c = 'e' ∨ c = 'E' then
      let sp : Bool × List Char :=
        match rest with
        | '+' :: t => (false, t)
        | '-' :: t => (true, t)
        | t => (false, t)
      let p := spanDigits sp.2
      if p.1 = [] then (m, c :: rest)
      else
        let n := digitsToNat p.1
        if sp.1 then ((m.1, m.2 + n), p.2)
        else if n ≤ m.2 then ((m.1, m.2 - n), p.2)
        else ((m.1 * (10 : Int) ^ (n - m.2), 0), p.2)
    else (m, c :: rest)

/-- Parse the longest unsigned decimal-literal prefix
(`digits [. digits] [exp]` or `. digits [exp]`) as a mantissa/scale pair;
`none` when no digit is present, mirroring `parseFloat` returning NaN. -/
def parseDecLit (cs : List Char) : Option ((Int × Nat) × List Char) :=
  let p1 := spanDigits cs
  match p1.1, p1.2 with
  | [], '.' :: rest =>
    let p2 := spanDigits rest
    if p2.1 = [] then none
    else some (applyExp ((digitsToNat p2.1 : Int), p2.1.length) p2.2)
  | [], _ => none
  | ip, '.' :: rest =>
    let p2 := spanDigits rest
    some (applyExp ((digitsToNat (ip ++ p2.1) : Int), p2.1.length) p2.2)
  | ip, r => some (applyExp ((digitsToNat ip : Int), 0) r)

/-- Does `pat` occur at the very start of `s`? -/
def leadsWith : List Char → List Char → Bool
  | [], _ => true
  | _ :: _, [] => false
  | p :: ps, c :: cs => p == c && leadsWith ps cs

/-- Does `pat` occur anywhere inside `s`? -/
def occursIn (pat : List Char) : List Char → Bool
  | [] => pat.isEmpty
  | c :: cs => leadsWith pat (c :: cs) || occursIn pat cs

/-- `s` contains `sub` as a contiguous substring. -/
def strIncludes (s sub : String) : Bool := occursIn sub.data s.data

/-- JS `parseFloat`: skip whitespace, optional sign, then either the
`Infinity` literal or the longest decimal-literal prefix; NaN when no
numeric prefix exists. -/
def parseFloat (s : String) : JsValue :=
  let cs := s.data.dropWhile wsChar
  let sgn : Bool × List Char :=
    match cs with
    | '-' :: t => (true, t)
    | '+' :: t => (false, t)
    | t => (false, t)
  if leadsWith "Infinity".data sgn.2 then .inf sgn.1
  else
    match parseDecLit sgn.2 with
    | some p => .num (JsNum.canon (if sgn.1 then -p.1.1 else p.1.1) p.1.2)
    | none => .nan

example : parseFloat "abc" = .nan := rfl
example : parseFloat "100.00" = .num (.ofInt 100) := rfl
example : parseFloat "5.00" = .num (.ofInt 5) := rfl
example : parseFloat "0" = .num (.ofInt 0) := rfl
example : parseFloat "12abc" = .num (.ofInt 12) := rfl
example : parseFloat "-2.5e1" = .num (.ofInt (-25)) := rfl
example : parseFloat "8.88" = .num ⟨888, 2⟩ := rfl
example : parseFloat "." = .nan := rfl
example : JsNum.render ⟨888, 2⟩ = "8.88" := rfl
example : (JsNum.mul ⟨888, 4⟩ (.ofInt 100)).toFixed 4 = "8.8800" := rfl
example : JsNum.render (.ofInt 100) = "100" := rfl

mutual

/-- JS `String(v)` (template-literal interpolation): arrays join their
elements' conversions with commas, objects print as `[object Object]`. -/
def jsString : JsValue → String
  | .str s => s
  | .num q => q.render
  | .nan => "NaN"
  | .inf neg => if neg then "-Infinity" else "Infinity"
  | .bool b => if b then "true" else "false"
  | .null => "null"
  | .undefined => "undefined"
  | .obj _ => "[object Object]"
  | .arr xs => String.intercalate "," (jsStringElems xs)

def jsStringElems : List JsValue → List String
  | [] => []
  | x :: xs => jsString x :: jsStringElems xs

end

/-- JSON string escaping for the characters the model prints. -/
def jsonEscapeChar (c : Char) : String :=
  if c = '"' then "\\\""
  else if c = '\\' then "\\\\"
  else if c = '\n' then "\\n"
  else if c = '\t' then "\\t"
  else if c = '\r' then "\\r"
  else String.mk [c]

/-- A JSON-quoted string literal. -/
def jsonQuote (s : String) : String :=
  "\"" ++ String.join (s.data.map jsonEscapeChar) ++ "\""

mutual

/-- `JSON.stringify(v)` (no indent): `none` models the call returning
`undefined` (when `v` itself is `undefined`); NaN and ±Infinity
serialize as `null`; `undefined` array elements serialize as `null` and
`undefined` object fields are omitted. -/
def jsonStringifyCompact : JsValue → Option String
  | .str s => some (jsonQuote s)
  | .num q => some q.render
  | .nan => some "null"
  | .inf _ => some "null"
  | .bool b => some (if b then "true" else "false")
  | .null => some "null"
  | .undefined => none
  | .obj fs => some ("\x7b" ++ String.intercalate "," (jsonCompactFields fs) ++ "\x7d")
  | .arr xs => some ("[" ++ String.intercalate "," (jsonCompactElems xs) ++ "]")

def jsonCompactElems : List JsValue → List String
  | [] => []
  | x :: xs => (jsonStringifyCompact x).getD "null" :: jsonCompactElems xs

def jsonCompactFields : List (String × JsValue) → List String
  | [] => []
  | (k, v) :: fs =>
    (match jsonStringifyCompact v with
     | some s => [jsonQuote k ++ ":" ++ s]
     | none => []) ++ jsonCompactFields fs

end

/-- `n` spaces. -/
def indentSp (n : Nat) : String := String.mk (List.replicate n ' ')

mutual

/-- `JSON.stringify(v, null, 2)` at nesting depth `ind` (the CLI's
`printJson` formatting): arrays and objects spread one entry per line
with two-space indentation; empty containers print compactly. -/
def jsonStringify2 : Nat → JsValue → Option String
  | _, .str s => some (jsonQuote s)
  | _, .num q => some q.render
  | _, .nan => some "null"
  | _, .inf _ => some "null"
  | _, .bool b => some (if b then "true" else "false")
  | _, .null => some "null"
  | _, .undefined => none
  | ind, .obj fs =>
    match json2Fields (ind + 2) fs with
    | [] => some "\x7b\x7d"
    | ls => some ("\x7b\n" ++ String.intercalate ",\n" (ls.map (indentSp (ind + 2) ++ ·)) ++
        "\n" ++ indentSp ind ++ "\x7d")
  | ind, .arr xs =>
    match json2Elems (ind + 2) xs with
    | [] => some "[]"
    | ls => some ("[\n" ++ String.intercalate ",\n" (ls.map (indentSp (ind + 2) ++ ·)) ++
        "\n" ++ indentSp ind ++ "]")

def json2Elems : Nat → List JsValue → List String
  | _, [] => []
  | ind, x :: xs => (jsonStringify2 ind x).getD "null" :: json2Elems ind xs

def json2Fields : Nat → List (String × JsValue) → List String
  | _, [] => []
  | ind, (k, v) :: fs =>
    (match jsonStringify2 ind v with
     | some s => [jsonQuote k ++ ": " ++ s]
     | none => []) ++ json2Fields ind fs

end

/-- The string printed by the CLI's `printJson` helper
(`console.log(JSON.stringify(data, null, 2))`). -/
def printJsonStr (v : JsValue) : String := (jsonStringify2 0 v).getD "undefined"

/-- JS `Number(v)` coercion, restricted to the value shapes the model
feeds it (object/array coercion via `toPrimitive` is not exercised by
the source and maps to NaN). -/
def toNumberValue : JsValue → JsValue
  | .num q => .num q
  | .nan => .nan
  | .inf s => .inf s
  | .bool b => .num (.ofInt (if b then 1 else 0))
  | .null => .num (.ofInt 0)
  | .undefined => .nan
  | .str s =>
    let cs := s.data.dropWhile wsChar
    let cs := (cs.reverse.dropWhile wsChar).reverse
    if cs = [] then .num (.ofInt 0)
    else
      let sgn : Bool × List Char :=
        match cs with
        | '-' :: t => (true, t)
        | '+' :: t => (false, t)
        | t => (false, t)
      if sgn.2 = "Infinity".data then .inf sgn.1
      else
        match parseDecLit sgn.2 with
        | some p => if p.2 = [] then .num (JsNum.canon (if sgn.1 then -p.1.1 else p.1.1) p.1.2) else .nan
        | none => .nan
  | .obj _ => .nan
  | .arr _ => .nan

/-- `(v * 100).toFixed(4)`, as the dispatcher renders tax rates. -/
def rateTimes100Fixed4 (v : JsValue) : String :=
  match toNumberValue v with
  | .num a => (a.mul (.ofInt 100)).toFixed 4
  | .inf neg => if neg then "-Infinity" else "Infinity"
  | _ => "NaN"

example : printJsonStr (.arr []) = "[]" := rfl
example : jsonStringifyCompact (.obj [("amount", .nan)]) = some "\x7b\"amount\":null\x7d" := rfl
example : rateTimes100Fixed4 (.num ⟨888, 4⟩) = "8.8800" := rfl
example : jsString (.num ⟨888, 2⟩) = "8.88" := rfl

/- ── Config Store (`src/config.js`) ─────────────────────────────────── -/

/-- The persisted configuration record managed by `conf`: `none` models
a field never written, for which `config.get` returns the schema
default (`''` for `apiKey`, the production endpoint for `baseUrl`). -/
structure StoredConfig where
  apiKey : Option String
  baseUrl : Option String

/-- `config.get('apiKey')` with the schema default `''`. -/
def confGetApiKey (c : StoredConfig) : String := c.apiKey.getD ""

/-- `config.get('baseUrl')` with the schema default. -/
def confGetBaseUrl (c : StoredConfig) : String :=
  c.baseUrl.getD "https://api.taxjar.com/v2"

/-- JS `a || b` on strings (the empty string is falsy). -/
def jsOrStr (a b : String) : String := if a = "" then b else a

/-- The string value of a possibly-unset environment variable under `||`
(`undefined` is falsy, so an unset variable behaves like `''`). -/
def envStr (env : Option String) : String := env.getD ""

/-- Result of `getApiKey`: either the resolved key, or the modelled
`process.exit(1)` after printing the configuration guidance. -/
inductive CredResult where
  | key (k : String)
  | exitError (code : Nat) (messages : List String)
deriving DecidableEq

/-- The guidance printed by `getApiKey` before `process.exit(1)`. -/
def noApiKeyMessages : List String :=
  ["Error: No API key configured.",
   "Set your API key with:",
   "  taxjar config set --api-key <your-api-key>",
   "Or set the TAXJAR_API_KEY environment variable."]

/-- `getApiKey` from `src/config.js`:
`process.env.TAXJAR_API_KEY || config.get('apiKey')`, exiting with
status 1 and the guidance messages when the result is falsy. -/
def getApiKeyModel (env : Option String) (c : StoredConfig) : CredResult :=
  let apiKey := jsOrStr (envStr env) (confGetApiKey c)
  if apiKey = "" then .exitError 1 noApiKeyMessages
  else .key apiKey

/-- `getBaseUrl` from `src/config.js`:
`process.env.TAXJAR_BASE_URL || config.get('baseUrl')`. -/
def getBaseUrlModel (envBase : Option String) (c : StoredConfig) : String :=
  jsOrStr (envStr envBase) (confGetBaseUrl c)

/-- `apiKey.slice(0, 4)`. -/
def jsSliceTake (s : String) (n : Nat) : String := String.mk (s.data.take n)

/-- `apiKey.slice(-n)`: the last `n` characters (the whole string when
it is shorter than `n`). -/
def jsSliceLast (s : String) (n : Nat) : String :=
  String.mk (s.data.drop (s.data.length - n))

/-- The fixed mask inserted between the revealed slices. -/
def maskString : String := "****"

/-- The masked key `apiKey.slice(0, 4) + '****' + apiKey.slice(-4)`. -/
def maskKey (k : String) : String := jsSliceTake k 4 ++ maskString ++ jsSliceLast k 4

/-- The view returned by `showConfig` (the `configPath` field of the
source is an environment-dependent filesystem path and carries no
semantic contract; it is outside the model). -/
structure ShownConfig where
  apiKey : String
  baseUrl : String

/-- `showConfig` from `src/config.js`: masks
`config.get('apiKey') || process.env.TAXJAR_API_KEY || ''` — note the
stored key takes precedence here, unlike `getApiKey`. -/
def showConfigModel (env envBase : Option String) (c : StoredConfig) : ShownConfig :=
  let apiKey := jsOrStr (confGetApiKey c) (jsOrStr (envStr env) "")
  ⟨if apiKey = "" then "(not set)" else maskKey apiKey,
   getBaseUrlModel envBase c⟩

/- ── API Client (`src/api.js`) ──────────────────────────────────────── -/

/-- The shape of an axios error: `response` is present when the remote
answered with a non-2xx status (carrying the status and the parsed
body), `request` is truthy when the request went out but nothing came
back, and `message` describes a local construction failure. -/
structure AxiosError where
  response : Option (Nat × JsValue)
  request : Bool
  message : String

/-- The three-kind error taxonomy the client translates failures into. -/
inductive CliError where
  | apiError (status : Nat) (message : String)
  | networkError
  | requestError (message : String)
deriving DecidableEq

/-- `handleError` from `src/api.js`: non-2xx response ⇒ `ApiError` with
`data?.detail || data?.error || JSON.stringify(data)`; request without
response ⇒ `NetworkError`; anything else ⇒ `RequestError` with the
underlying message.  (The source throws an `Error` whose text is
`cliErrorMessage` of this value.) -/
def handleError (e : AxiosError) : CliError :=
  match e.response with
  | some (status, data) =>
    let fallback : JsValue :=
      match jsonStringifyCompact data with
      | some s => .str s
      | none => .undefined
    .apiError status (jsString (jsOrV (jsGet data "detail") (jsOrV (jsGet data "error") fallback)))
  | none => if e.request then .networkError else .requestError e.message

/-- The message of the `Error` thrown by `handleError`, as the
dispatcher prints it. -/
def cliErrorMessage : CliError → String
  | .apiError status message => "TaxJar API Error (" ++ Nat.repr status ++ "): " ++ message
  | .networkError => "Network error: No response received from TaxJar API. Check your internet connection."
  | .requestError message => "Request error: " ++ message

/-- One HTTP request as the axios client issues it: method, path
(relative to the base URL), optional JSON body, query parameters. -/
structure HttpRequest where
  method : String
  path : String
  body : Option JsValue
  query : List (String × JsValue)

/-- The remote service's behaviour for the single call an invocation
makes: a successful 2xx JSON body, or an axios failure. -/
inductive RemoteOutcome where
  | success (data : JsValue)
  | failure (e : AxiosError)

/-- One API-client operation: issues exactly one request (the client
never retries) and either unwraps the named envelope field from the
response or translates the failure through `handleError`. -/
def apiOperation (req : HttpRequest) (unwrap : String) (remote : RemoteOutcome) :
    List HttpRequest × Except CliError JsValue :=
  ([req],
   match remote with
   | .success data => .ok (jsGet data unwrap)
   | .failure e => .error (handleError e))

/-- An uppercase hex digit. -/
def hexDigitChar (n : Nat) : Char :=
  if n < 10 then Char.ofNat (48 + n) else Char.ofNat (55 + n)

/-- `%XX` percent-encoding of one byte. -/
def percentEncodeByte (b : UInt8) : String :=
  String.mk ['%', hexDigitChar (b.toNat / 16), hexDigitChar (b.toNat % 16)]

/-- Characters `encodeURIComponent` leaves unescaped. -/
def uriUnreserved (c : Char) : Bool :=
  c.isAlphanum || c = '-' || c = '_' || c = '.' || c = '!' || c = '~' ||
    c = '*' || c = '\'' || c = '(' || c = ')'

/-- JS `encodeURIComponent`: unreserved characters pass through, all
others are percent-encoded byte-wise in UTF-8. -/
def encodeURIComponent (s : String) : String :=
  String.join (s.data.map fun c =>
    if uriUnreserved c then String.mk [c]
    else String.join ((String.mk [c]).toUTF8.toList.map percentEncodeByte))

/- ── Command Dispatcher (`src/index.js`) ────────────────────────────── -/

/-- `str.padEnd(w)`. -/
def padEnd (s : String) (w : Nat) : String :=
  s ++ String.mk (List.replicate (w - s.length) ' ')

/-- One table cell: `String(row[col.key] ?? '')`.  The lookup uses the
literal property name, with no traversal into nested objects. -/
def tableCell (row : JsValue) (key : String) : String :=
  jsString (jsNullishEmpty (jsGet row key))

/-- The width of one column: the label's length maximised over every
row's cell length, as `printTable` computes it. -/
def colWidth (data : List JsValue) (key label : String) : Nat :=
  data.foldl (fun w row => max w (tableCell row key).length) label.length

/-- `printTable` from `src/index.js`, as the list of printed lines.
Columns are given as (key, label) pairs.  An empty data list prints the
`No results found.` sentinel and nothing else. -/
def printTableLines (data : List JsValue) (cols : List (String × String)) : List String :=
  if data.isEmpty then ["No results found."]
  else
    String.intercalate "  " (cols.map fun c => padEnd c.2 (colWidth data c.1 c.2)) ::
    String.intercalate "  " (cols.map fun c => String.mk (List.replicate (colWidth data c.1 c.2) '-')) ::
    data.map fun row =>
      String.intercalate "  " (cols.map fun c => padEnd (tableCell row c.1) (colWidth data c.1 c.2))

/-- Everything observable from one CLI invocation: the HTTP requests it
issued, the console lines it printed (spinner succeed/fail texts
included, colour stripped), and the process exit code. -/
structure ActionOutcome where
  requests : List HttpRequest
  output : List String
  exitCode : Nat

/-- `if (options.x) params.x = options.x`: an optional flag is added to
the params object only when supplied and truthy (the empty string is
falsy and is dropped). -/
def optField (name : String) (v : Option String) : List (String × JsValue) :=
  match v with
  | some s => if s = "" then [] else [(name, .str s)]
  | none => []

/-- `cond ? 'Yes' : 'No'`. -/
def yesNo (b : Bool) : String := if b then "Yes" else "No"

/-- Parsed flags of `tax calculate`.  The seven required flags and
`shipping` are strings as commander delivers them (`shipping` defaults
to `'0'` when the flag is omitted); the four optional address flags are
`none` when not supplied. -/
structure TaxCalculateOptions where
  fromCountry : String
  fromZip : String
  fromState : String
  toCountry : String
  toZip : String
  toState : String
  amount : String
  shipping : String
  fromCity : Option String
  fromStreet : Option String
  toCity : Option String
  toStreet : Option String
  json : Bool

/-- The request body `tax calculate` assembles: required fields plus the
defaulted `shipping`, amounts routed through `parseFloat`, optional
address fields appended only when supplied. -/
def taxCalculateParams (o : TaxCalculateOptions) : List (String × JsValue) :=
  [("from_country", .str o.fromCountry),
   ("from_zip", .str o.fromZip),
   ("from_state", .str o.fromState),
   ("to_country", .str o.toCountry),
   ("to_zip", .str o.toZip),
   ("to_state", .str o.toState),
   ("amount", parseFloat o.amount),
   ("shipping", parseFloat o.shipping)] ++
  optField "from_city" o.fromCity ++
  optField "from_street" o.fromStreet ++
  optField "to_city" o.toCity ++
  optField "to_street" o.toStreet

/-- The `$`-labelled breakdown line for one collectable component,
printed only when the component is truthy. -/
def breakdownLine (b : JsValue) (key label : String) : List String :=
  let v := jsGet b key
  if jsTruthy v then [label ++ "$" ++ jsString v] else []

/-- The breakdown block of the human tax rendering, printed only when
`result.breakdown` is truthy. -/
def breakdownLines (b : JsValue) : List String :=
  if jsTruthy b then
    ["", "Breakdown", "─────────"] ++
    breakdownLine b "state_tax_collectable" "State Tax:          " ++
    breakdownLine b "county_tax_collectable" "County Tax:         " ++
    breakdownLine b "city_tax_collectable" "City Tax:           " ++
    breakdownLine b "special_district_tax_collectable" "Special District:   "
  else []

/-- The human-mode field listing `tax calculate` prints on success. -/
def taxHumanLines (o : TaxCalculateOptions) (result : JsValue) : List String :=
  ["",
   "Tax Calculation Result",
   "──────────────────────",
   "Order Amount:       $" ++ o.amount,
   "Taxable Amount:     $" ++ jsString (jsGet result "taxable_amount"),
   "Shipping:           $" ++ o.shipping,
   "Freight Taxable:    " ++ yesNo (jsTruthy (jsGet result "freight_taxable")),
   "Tax Rate:           " ++ rateTimes100Fixed4 (jsGet result "rate") ++ "%",
   "Tax to Collect:     $" ++ jsString (jsGet result "amount_to_collect"),
   "Has Nexus:          " ++ yesNo (jsTruthy (jsGet result "has_nexus"))] ++
  breakdownLines (jsGet result "breakdown")

/-- The `tax calculate` action: assembles the body (numeric flags pass
through `parseFloat` with no validation), issues one POST to `/taxes`,
and renders the unwrapped `tax` object as JSON or as the human field
listing; a failure prints the spinner failure text and the translated
error and exits with status 1. -/
def taxCalculateAction (o : TaxCalculateOptions) (remote : RemoteOutcome) : ActionOutcome :=
  let req : HttpRequest := ⟨"POST", "/taxes", some (.obj (taxCalculateParams o)), []⟩
  match remote with
  | .failure e =>
    ⟨[req], ["Tax calculation failed", cliErrorMessage (handleError e)], 1⟩
  | .success data =>
    let result := jsGet data "tax"
    if o.json then ⟨[req], ["Tax calculated", printJsonStr result], 0⟩
    else ⟨[req], "Tax calculated" :: taxHumanLines o result, 0⟩

/-- Parsed flags of `rates get`: `zip` required, `country` defaulted to
`'US'` by commander, the rest optional. -/
structure RatesGetOptions where
  zip : String
  country : String
  city : Option String
  street : Option String
  state : Option String
  json : Bool

/-- The query parameters `rates get` assembles: `country` always (it has
a default), the optional fields only when supplied. -/
def ratesGetParams (o : RatesGetOptions) : List (String × JsValue) :=
  [("country", .str o.country)] ++
  optField "city" o.city ++
  optField "street" o.street ++
  optField "state" o.state

/-- A percentage line `label + (parseFloat(v) * 100).toFixed(4) + '%'`,
printed only when the field is truthy. -/
def rateFieldLine (rate : JsValue) (key label : String) : List String :=
  let v := jsGet rate key
  if jsTruthy v then
    [label ++ rateTimes100Fixed4 (parseFloat (jsString v)) ++ "%"]
  else []

/-- A plain text line printed only when the field is truthy. -/
def textFieldLine (rate : JsValue) (key label : String) : List String :=
  let v := jsGet rate key
  if jsTruthy v then [label ++ jsString v] else []

/-- The human-mode field listing `rates get` prints on success. -/
def ratesHumanLines (o : RatesGetOptions) (rate : JsValue) : List String :=
  ["",
   "Tax Rates for " ++ o.zip ++ " (" ++ o.country ++ ")",
   "──────────────────────────────────"] ++
  textFieldLine rate "city" "City:               " ++
  textFieldLine rate "state" "State:              " ++
  textFieldLine rate "county" "County:             " ++
  [""] ++
  rateFieldLine rate "state_rate" "State Rate:         " ++
  rateFieldLine rate "county_rate" "County Rate:        " ++
  rateFieldLine rate "city_rate" "City Rate:          " ++
  rateFieldLine rate "combined_district_rate" "District Rate:      " ++
  ["Combined Rate:      " ++
     rateTimes100Fixed4 (parseFloat (jsString (jsGet rate "combined_rate"))) ++ "%"] ++
  (match jsGet rate "freight_taxable" with
   | .undefined => []
   | v => ["Freight Taxable:    " ++ yesNo (jsTruthy v)])

/-- The `rates get` action: one GET to `/rates/{zip}` with the assembled
query, rendering the unwrapped `rate` object. -/
def ratesGetAction (o : RatesGetOptions) (remote : RemoteOutcome) : ActionOutcome :=
  let req : HttpRequest :=
    ⟨"GET", "/rates/" ++ encodeURIComponent o.zip, none, ratesGetParams o⟩
  match remote with
  | .failure e =>
    ⟨[req], ["Failed to fetch rates", cliErrorMessage (handleError e)], 1⟩
  | .success data =>
    let rate := jsGet data "rate"
    if o.json then ⟨[req], ["Rates retrieved", printJsonStr rate], 0⟩
    else ⟨[req], "Rates retrieved" :: ratesHumanLines o rate, 0⟩

/-- The column spec `rates summary` passes to `printTable`: the last two
keys are the literal strings `minimum_rate.rate` / `average_rate.rate`. -/
def summaryRateCols : List (String × String) :=
  [("country_code", "Country"),
   ("country", "Country Name"),
   ("region_code", "Region"),
   ("region", "Region Name"),
   ("minimum_rate.rate", "Min Rate"),
   ("average_rate.rate", "Avg Rate")]

/-- The `rates summary` action: one GET to `/summary_rates`, a count
line, then JSON or the `printTable` rendering with `summaryRateCols`. -/
def ratesSummaryAction (json : Bool) (remote : RemoteOutcome) : ActionOutcome :=
  let req : HttpRequest := ⟨"GET", "/summary_rates", none, []⟩
  match remote with
  | .failure e =>
    ⟨[req], ["Failed to fetch summary rates", cliErrorMessage (handleError e)], 1⟩
  | .success data =>
    let rates := jsElems (jsGet data "summary_rates")
    let found := "Retrieved " ++ Nat.repr rates.length ++ " region summaries"
    if json then ⟨[req], [found, printJsonStr (.arr rates)], 0⟩
    else ⟨[req], found :: printTableLines rates summaryRateCols, 0⟩

/-- The `nexus list` action: one GET to `/nexus/regions`, a count line,
then JSON or a four-column table. -/
def nexusListAction (json : Bool) (remote : RemoteOutcome) : ActionOutcome :=
  let req : HttpRequest := ⟨"GET", "/nexus/regions", none, []⟩
  match remote with
  | .failure e =>
    ⟨[req], ["Failed to fetch nexus regions", cliErrorMessage (handleError e)], 1⟩
  | .success data =>
    let regions := jsElems (jsGet data "regions")
    let found := "Found " ++ Nat.repr regions.length ++ " nexus region(s)"
    if json then ⟨[req], [found, printJsonStr (.arr regions)], 0⟩
    else
      ⟨[req],
       found :: printTableLines regions
         [("country_code", "Country"), ("country", "Country Name"),
          ("region_code", "State/Region"), ("region", "Region Name")],
       0⟩

/-- The `categories list` action: one GET to `/categories`, a count
line, then JSON or a three-column table. -/
def categoriesListAction (json : Bool) (remote : RemoteOutcome) : ActionOutcome :=
  let req : HttpRequest := ⟨"GET", "/categories", none, []⟩
  match remote with
  | .failure e =>
    ⟨[req], ["Failed to fetch categories", cliErrorMessage (handleError e)], 1⟩
  | .success data =>
    let categories := jsElems (jsGet data "categories")
    let found := "Found " ++ Nat.repr categories.length ++ " categories"
    if json then ⟨[req], [found, printJsonStr (.arr categories)], 0⟩
    else
      ⟨[req],
       found :: printTableLines categories
         [("product_tax_code", "Tax Code"), ("name", "Name"), ("description", "Description")],
       0⟩

/-- Parsed flags of `orders list` (all optional). -/
structure OrdersListOptions where
  fromDate : Option String
  toDate : Option String
  status : Option String
  json : Bool

/-- The query parameters `orders list` assembles: only supplied filters. -/
def ordersListParams (o : OrdersListOptions) : List (String × JsValue) :=
  optField "from_transaction_date" o.fromDate ++
  optField "to_transaction_date" o.toDate ++
  optField "status" o.status

/-- The `orders list` action: one GET to `/transactions/orders` with the
filter query; JSON mode prints the raw list, human mode prints a count,
a dedicated empty sentinel for zero orders, or a one-column table of
transaction ids plus a usage hint. -/
def ordersListAction (o : OrdersListOptions) (remote : RemoteOutcome) : ActionOutcome :=
  let req : HttpRequest := ⟨"GET", "/transactions/orders", none, ordersListParams o⟩
  match remote with
  | .failure e =>
    ⟨[req], ["Failed to fetch orders", cliErrorMessage (handleError e)], 1⟩
  | .success data =>
    let orders := jsElems (jsGet data "orders")
    let found := "Found " ++ Nat.repr orders.length ++ " order(s)"
    if o.json then ⟨[req], [found, printJsonStr (.arr orders)], 0⟩
    else if orders.length = 0 then
      ⟨[req], [found, "No orders found for the given criteria."], 0⟩
    else
      ⟨[req],
       found ::
         printTableLines (orders.map fun id => .obj [("transaction_id", id)])
           [("transaction_id", "Transaction ID")] ++
         ["\nUse `taxjar orders get <transaction-id>` to see order details."],
       0⟩

/-- The human-mode field listing `orders get` prints on success
(line items omitted: the claims do not exercise the nested table). -/
def orderHumanLines (order : JsValue) : List String :=
  ["",
   "Order: " ++ jsString (jsGet order "transaction_id"),
   "──────────────────────────────────",
   "Transaction Date:   " ++ jsString (jsGet order "transaction_date"),
   "Amount:             $" ++ jsString (jsGet order "amount"),
   "Shipping:           $" ++ jsString (jsGet order "shipping"),
   "Sales Tax:          $" ++ jsString (jsGet order "sales_tax")]

/-- The `orders get` action: one GET to `/transactions/orders/{id}`. -/
def ordersGetAction (transactionId : String) (json : Bool) (remote : RemoteOutcome) : ActionOutcome :=
  let req : HttpRequest :=
    ⟨"GET", "/transactions/orders/" ++ encodeURIComponent transactionId, none, []⟩
  match remote with
  | .failure e =>
    ⟨[req], ["Failed to fetch order", cliErrorMessage (handleError e)], 1⟩
  | .success data =>
    let order := jsGet data "order"
    if json then ⟨[req], ["Order retrieved", printJsonStr order], 0⟩
    else ⟨[req], "Order retrieved" :: orderHumanLines order, 0⟩

/-- Parsed flags of `orders create`: eight required flags, five optional. -/
structure OrdersCreateOptions where
  transactionId : String
  transactionDate : String
  toCountry : String
  toZip : String
  toState : String
  amount : String
  shipping : String
  salesTax : String
  fromCountry : Option String
  fromZip : Option String
  fromState : Option String
  toCity : Option String
  fromCity : Option String
  json : Bool

/-- The request body `orders create` assembles: required fields with the
three amounts routed through `parseFloat`, optional fields appended only
when supplied. -/
def ordersCreateParams (o : OrdersCreateOptions) : List (String × JsValue) :=
  [("transaction_id", .str o.transactionId),
   ("transaction_date", .str o.transactionDate),
   ("to_country", .str o.toCountry),
   ("to_zip", .str o.toZip),
   ("to_state", .str o.toState),
   ("amount", parseFloat o.amount),
   ("shipping", parseFloat o.shipping),
   ("sales_tax", parseFloat o.salesTax)] ++
  optField "from_country" o.fromCountry ++
  optField "from_zip" o.fromZip ++
  optField "from_state" o.fromState ++
  optField "to_city" o.toCity ++
  optField "from_city" o.fromCity

/-- The three-line summary printed after creating or updating an order. -/
def orderShortLines (order : JsValue) : List String :=
  ["Transaction ID:  " ++ jsString (jsGet order "transaction_id"),
   "Amount:          $" ++ jsString (jsGet order "amount"),
   "Sales Tax:       $" ++ jsString (jsGet order "sales_tax")]

/-- The `orders create` action: one POST to `/transactions/orders`
(numeric flags pass through `parseFloat` with no validation). -/
def ordersCreateAction (o : OrdersCreateOptions) (remote : RemoteOutcome) : ActionOutcome :=
  let req : HttpRequest := ⟨"POST", "/transactions/orders", some (.obj (ordersCreateParams o)), []⟩
  match remote with
  | .failure e =>
    ⟨[req], ["Failed to create order", cliErrorMessage (handleError e)], 1⟩
  | .success data =>
    let order := jsGet data "order"
    if o.json then ⟨[req], ["Order created successfully", printJsonStr order], 0⟩
    else ⟨[req], "Order created successfully" :: orderShortLines order, 0⟩

/-- Parsed flags of `orders update` (all optional). -/
structure OrdersUpdateOptions where
  amount : Option String
  shipping : Option String
  salesTax : Option String
  transactionDate : Option String
  json : Bool

/-- An optional amount flag routed through `parseFloat` when supplied
and truthy. -/
def optNumField (name : String) (v : Option String) : List (String × JsValue) :=
  match v with
  | some s => if s = "" then [] else [(name, parseFloat s)]
  | none => []

/-- The request body `orders update` assembles: always the id, then only
the supplied flags (amounts via `parseFloat`). -/
def ordersUpdateParams (transactionId : String) (o : OrdersUpdateOptions) :
    List (String × JsValue) :=
  [("transaction_id", .str transactionId)] ++
  optNumField "amount" o.amount ++
  optNumField "shipping" o.shipping ++
  optNumField "sales_tax" o.salesTax ++
  optField "transaction_date" o.transactionDate

/-- The `orders update` action: one PUT to `/transactions/orders/{id}`. -/
def ordersUpdateAction (transactionId : String) (o : OrdersUpdateOptions)
    (remote : RemoteOutcome) : ActionOutcome :=
  let req : HttpRequest :=
    ⟨"PUT", "/transactions/orders/" ++ encodeURIComponent transactionId,
     some (.obj (ordersUpdateParams transactionId o)), []⟩
  match remote with
  | .failure e =>
    ⟨[req], ["Failed to update order", cliErrorMessage (handleError e)], 1⟩
  | .success data =>
    let order := jsGet data "order"
    if o.json then ⟨[req], ["Order updated successfully", printJsonStr order], 0⟩
    else ⟨[req], "Order updated successfully" :: orderShortLines order, 0⟩

/-- The `orders delete` action: one DELETE to `/transactions/orders/{id}`. -/
def ordersDeleteAction (transactionId : String) (json : Bool) (remote : RemoteOutcome) :
    ActionOutcome :=
  let req : HttpRequest :=
    ⟨"DELETE", "/transactions/orders/" ++ encodeURIComponent transactionId, none, []⟩
  match remote with
  | .failure e =>
    ⟨[req], ["Failed to delete order", cliErrorMessage (handleError e)], 1⟩
  | .success data =>
    let order := jsGet data "order"
    if json then ⟨[req], ["Order deleted successfully", printJsonStr order], 0⟩
    else ⟨[req], ["Order deleted successfully", "Deleted transaction: " ++ transactionId], 0⟩

/-- Parsed flags of `refunds list` (all optional). -/
structure RefundsListOptions where
  fromDate : Option String
  toDate : Option String
  json : Bool

/-- The query parameters `refunds list` assembles. -/
def refundsListParams (o : RefundsListOptions) : List (String × JsValue) :=
  optField "from_transaction_date" o.fromDate ++
  optField "to_transaction_date" o.toDate

/-- The `refunds list` action: one GET to `/transactions/refunds`;
zero refunds print a dedicated sentinel in human mode. -/
def refundsListAction (o : RefundsListOptions) (remote : RemoteOutcome) : ActionOutcome :=
  let req : HttpRequest := ⟨"GET", "/transactions/refunds", none, refundsListParams o⟩
  match remote with
  | .failure e =>
    ⟨[req], ["Failed to fetch refunds", cliErrorMessage (handleError e)], 1⟩
  | .success data =>
    let refunds := jsElems (jsGet data "refunds")
    let found := "Found " ++ Nat.repr refunds.length ++ " refund(s)"
    if o.json then ⟨[req], [found, printJsonStr (.arr refunds)], 0⟩
    else if refunds.length = 0 then
      ⟨[req], [found, "No refunds found for the given criteria."], 0⟩
    else
      ⟨[req],
       found ::
         printTableLines (refunds.map fun id => .obj [("transaction_id", id)])
           [("transaction_id", "Transaction ID")],
       0⟩

/-- The `refunds get` action: one GET to `/transactions/refunds/{id}`. -/
def refundsGetAction (transactionId : String) (json : Bool) (remote : RemoteOutcome) :
    ActionOutcome :=
  let req : HttpRequest :=
    ⟨"GET", "/transactions/refunds/" ++ encodeURIComponent transactionId, none, []⟩
  match remote with
  | .failure e =>
    ⟨[req], ["Failed to fetch refund", cliErrorMessage (handleError e)], 1⟩
  | .success data =>
    let refund := jsGet data "refund"
    if json then ⟨[req], ["Refund retrieved", printJsonStr refund], 0⟩
    else
      ⟨[req],
       ["Refund retrieved",
        "",
        "Refund: " ++ jsString (jsGet refund "transaction_id"),
        "──────────────────────────────────",
        "Transaction Date:   " ++ jsString (jsGet refund "transaction_date"),
        "Refund Amount:      $" ++ jsString (jsGet refund "amount"),
        "Sales Tax Refund:   $" ++ jsString (jsGet refund "sales_tax")],
       0⟩

/-- Parsed flags of `refunds create` (all nine required). -/
structure RefundsCreateOptions where
  transactionId : String
  transactionDate : String
  transactionReferenceId : String
  toCountry : String
  toZip : String
  toState : String
  amount : String
  shipping : String
  salesTax : String
  json : Bool

/-- The request body `refunds create` assembles (all required; the three
amounts pass through `parseFloat`, sign unvalidated). -/
def refundsCreateParams (o : RefundsCreateOptions) : List (String × JsValue) :=
  [("transaction_id", .str o.transactionId),
   ("transaction_date", .str o.transactionDate),
   ("transaction_reference_id", .str o.transactionReferenceId),
   ("to_country", .str o.toCountry),
   ("to_zip", .str o.toZip),
   ("to_state", .str o.toState),
   ("amount", parseFloat o.amount),
   ("shipping", parseFloat o.shipping),
   ("sales_tax", parseFloat o.salesTax)]

/-- The `refunds create` action: one POST to `/transactions/refunds`. -/
def refundsCreateAction (o : RefundsCreateOptions) (remote : RemoteOutcome) : ActionOutcome :=
  let req : HttpRequest := ⟨"POST", "/transactions/refunds", some (.obj (refundsCreateParams o)), []⟩
  match remote with
  | .failure e =>
    ⟨[req], ["Failed to create refund", cliErrorMessage (handleError e)], 1⟩
  | .success data =>
    let refund := jsGet data "refund"
    if o.json then ⟨[req], ["Refund created successfully", printJsonStr refund], 0⟩
    else
      ⟨[req],
       ["Refund created successfully",
        "Transaction ID:  " ++ jsString (jsGet refund "transaction_id"),
        "Refund Amount:   $" ++ jsString (jsGet refund "amount"),
        "Sales Tax:       $" ++ jsString (jsGet refund "sales_tax")],
       0⟩

/-- Parsed flags of `validate address`: `country` required, the rest
optional. -/
structure ValidateAddressOptions where
  country : String
  state : Option String
  zip : Option String
  city : Option String
  street : Option String
  json : Bool

/-- The request body `validate address` assembles: `country` always,
optional fields only when supplied. -/
def validateAddressParams (o : ValidateAddressOptions) : List (String × JsValue) :=
  [("country", .str o.country)] ++
  optField "state" o.state ++
  optField "zip" o.zip ++
  optField "city" o.city ++
  optField "street" o.street

/-- The per-match block `validate address` prints in human mode. -/
def addressMatchLines (i : Nat) (addr : JsValue) : List String :=
  ["", "Match " ++ Nat.repr (i + 1) ++ ":"] ++
  textFieldLine addr "street" "Street:  " ++
  textFieldLine addr "city" "City:    " ++
  textFieldLine addr "state" "State:   " ++
  textFieldLine addr "zip" "ZIP:     " ++
  textFieldLine addr "country" "Country: "

/-- The `validate address` action: one POST to `/addresses/validate`;
human mode prints one block per candidate match (so zero matches print
nothing beyond the zero-count success line). -/
def validateAddressAction (o : ValidateAddressOptions) (remote : RemoteOutcome) : ActionOutcome :=
  let req : HttpRequest := ⟨"POST", "/addresses/validate", some (.obj (validateAddressParams o)), []⟩
  match remote with
  | .failure e =>
    ⟨[req], ["Address validation failed", cliErrorMessage (handleError e)], 1⟩
  | .success data =>
    let addresses := jsElems (jsGet data "addresses")
    let found := "Found " ++ Nat.repr addresses.length ++ " address match(es)"
    if o.json then ⟨[req], [found, printJsonStr (.arr addresses)], 0⟩
    else ⟨[req], found :: (addresses.enum.map (fun p => addressMatchLines p.1 p.2)).flatten, 0⟩

/-- The `validate vat` action: one GET to `/validation?vat=`. -/
def validateVatAction (vatNumber : String) (json : Bool) (remote : RemoteOutcome) : ActionOutcome :=
  let req : HttpRequest := ⟨"GET", "/validation", none, [("vat", .str vatNumber)]⟩
  match remote with
  | .failure e =>
    ⟨[req], ["VAT validation failed", cliErrorMessage (handleError e)], 1⟩
  | .success data =>
    let result := jsGet data "validation"
    if json then ⟨[req], ["VAT validation complete", printJsonStr result], 0⟩
    else
      ⟨[req],
       ["VAT validation complete",
        "",
        "VAT Validation Result",
        "─────────────────────",
        "VAT Number:  " ++ jsString (jsGet result "vat_number"),
        "Valid:       " ++ yesNo (jsTruthy (jsGet result "valid"))] ++
       textFieldLine result "name" "Name:        " ++
       textFieldLine result "country_code" "Country:     ",
       0⟩

/- ── Auxiliary observers used by the theorems ───────────────────────── -/

/-- The field names of a request body/query, in assembly order. -/
def paramKeys (ps : List (String × JsValue)) : List String := ps.map Prod.fst

/-- The value of a named field of a request body/query. -/
def lookupParam (ps : List (String × JsValue)) (k : String) : Option JsValue :=
  (ps.find? (fun p => p.1 == k)).map Prod.snd

/-- One `minimum_rate` / `average_rate` entry of a summary-rate row, as
the remote API returns it: a nested object with `label` and `rate`. -/
structure RateDetail where
  label : String
  rate : JsNum

/-- The JS object for a `RateDetail`. -/
def rateDetailJs (r : RateDetail) : JsValue :=
  .obj [("label", .str r.label), ("rate", .num r.rate)]

/-- One row of the `/summary_rates` response: flat region fields plus
the two nested rate objects. -/
structure SummaryRate where
  country_code : String
  country : String
  region_code : String
  region : String
  minimum_rate : RateDetail
  average_rate : RateDetail

/-- The JS object for a `SummaryRate` row. -/
def summaryRateJs (s : SummaryRate) : JsValue :=
  .obj [("country_code", .str s.country_code),
        ("country", .str s.country),
        ("region_code", .str s.region_code),
        ("region", .str s.region),
        ("minimum_rate", rateDetailJs s.minimum_rate),
        ("average_rate", rateDetailJs s.average_rate)]

/-- A column whose every cell is empty keeps its label's width. -/
theorem colWidth_of_cells_empty (data : List JsValue) (key label : String)
    (h : ∀ r ∈ data, tableCell r key = "") :
    colWidth data key label = label.length := by
  unfold colWidth
  suffices hgen : ∀ w, data.foldl (fun w row => max w (tableCell row key).length) w = w from
    hgen label.length
  induction data with
  | nil => intro w; rfl
  | cons x xs ih =>
    intro w
    rw [List.foldl_cons, h x (List.mem_cons_self x xs)]
    simpa using ih (fun r hr => h r (List.mem_cons_of_mem x hr)) w

/-- The character data of the masked key view. -/
theorem maskKey_data (k : String) :
    (maskKey k).data = k.data.take 4 ++ maskString.data ++ k.data.drop (k.data.length - 4) := by
  simp [maskKey, jsSliceTake, jsSliceLast, String.data_append]

/-- `orders list` issues its single GET in every branch. -/
theorem ordersListAction_requests (o : OrdersListOptions) (r : RemoteOutcome) :
    (ordersListAction o r).requests =
      [⟨"GET", "/transactions/orders", none, ordersListParams o⟩] := by
  cases r with
  | failure e => rfl
  | success d =>
    unfold ordersListAction
    dsimp only
    split
    · rfl
    · split <;> rfl

/-- `refunds list` issues its single GET in every branch. -/
theorem refundsListAction_requests (o : RefundsListOptions) (r : RemoteOutcome) :
    (refundsListAction o r).requests =
      [⟨"GET", "/transactions/refunds", none, refundsListParams o⟩] := by
  cases r with
  | failure e => rfl
  | success d =>
    unfold refundsListAction
    dsimp only
    split
    · rfl
    · split <;> rfl

/- ── Claim C1 ───────────────────────────────────────────────────────── -/

/-- A `tax calculate` invocation whose `--amount` is the non-numeric
string `abc` (all required flags supplied, `--shipping` at its default). -/
def c1TaxOptions : TaxCalculateOptions :=
  ⟨"US", "94025", "CA", "US", "10001", "NY", "abc", "0",
   none, none, none, none, false⟩

/-- An `orders create` invocation whose `--sales-tax` is `abc`. -/
def c1OrderOptions : OrdersCreateOptions :=
  ⟨"ORDER-1", "2026-01-15", "US", "10001", "NY", "100", "5", "abc",
   none, none, none, none, none, false⟩

/-- C1, evaluated at the failing input: with `--amount abc` the
dispatcher performs no validation — `parseFloat` yields NaN, the NaN is
placed in the body (where JSON serialization turns it into `null`), and
the request is still issued, contradicting the claim that non-numeric
input fails with a parse error before any network call.  Likewise for
`--sales-tax abc` on `orders create`. -/
theorem taxCalculate_nonNumericAmount_stillSends :
    parseFloat "abc" = .nan ∧
    lookupParam (taxCalculateParams c1TaxOptions) "amount" = some .nan ∧
    (taxCalculateAction c1TaxOptions (.success (.obj [("tax", .obj [])]))).requests.length = 1 ∧
    strIncludes ((jsonStringifyCompact (.obj (taxCalculateParams c1TaxOptions))).getD "")
      "\"amount\":null" = true ∧
    lookupParam (ordersCreateParams c1OrderOptions) "sales_tax" = some .nan ∧
    (ordersCreateAction c1OrderOptions (.success (.obj [("order", .obj [])]))).requests.length = 1 :=
  ⟨rfl, rfl, rfl, rfl, rfl, rfl⟩

/- ── Claim C2 ───────────────────────────────────────────────────────── -/

/-- A `tax calculate` invocation supplying exactly the required flags;
commander fills the omitted `--shipping` with its declared default `'0'`. -/
def c2Options : TaxCalculateOptions :=
  ⟨"US", "94025", "CA", "US", "10001", "NY", "100", "0",
   none, none, none, none, false⟩

/-- C2 counterexample: on a required-only `tax calculate` invocation the
body still contains the optional flag `shipping` (with its default value),
so it does not consist of the required fields alone. -/
theorem requiredOnly_taxCalculate_counterexample :
    "shipping" ∈ paramKeys (taxCalculateParams c2Options) ∧
    paramKeys (taxCalculateParams c2Options) ≠
      ["from_country", "from_zip", "from_state", "to_country", "to_zip", "to_state",
       "amount"] :=
  ⟨by decide, by decide⟩

/-- C2 as amended: a required-only invocation issues exactly one request
whose body/query holds exactly the required fields plus those optional
flags that declare defaults (`tax calculate --shipping`, default `0`;
`rates get --country`, default `US`), carrying their default values;
optional flags without defaults never appear, and no field is an
empty-string placeholder. -/
theorem requiredOnly_requests_amended
    (fc fz fs tc tz ts amt zip : String)
    (tid tdate tc2 tz2 ts2 am sh stx : String)
    (rid rdate rref rc rz rs ra rsh rst : String)
    (uid country vat : String) (remote : RemoteOutcome) :
    paramKeys (taxCalculateParams ⟨fc, fz, fs, tc, tz, ts, amt, "0",
        none, none, none, none, false⟩) =
      ["from_country", "from_zip", "from_state", "to_country", "to_zip", "to_state",
       "amount", "shipping"] ∧
    lookupParam (taxCalculateParams ⟨fc, fz, fs, tc, tz, ts, amt, "0",
        none, none, none, none, false⟩) "shipping" = some (.num (.ofInt 0)) ∧
    (taxCalculateAction ⟨fc, fz, fs, tc, tz, ts, amt, "0",
        none, none, none, none, false⟩ remote).requests.length = 1 ∧
    ratesGetParams ⟨zip, "US", none, none, none, false⟩ = [("country", .str "US")] ∧
    (ratesGetAction ⟨zip, "US", none, none, none, false⟩ remote).requests.length = 1 ∧
    ordersListParams ⟨none, none, none, false⟩ = [] ∧
    (ordersListAction ⟨none, none, none, false⟩ remote).requests.length = 1 ∧
    refundsListParams ⟨none, none, false⟩ = [] ∧
    (refundsListAction ⟨none, none, false⟩ remote).requests.length = 1 ∧
    paramKeys (ordersCreateParams ⟨tid, tdate, tc2, tz2, ts2, am, sh, stx,
        none, none, none, none, none, false⟩) =
      ["transaction_id", "transaction_date", "to_country", "to_zip", "to_state",
       "amount", "shipping", "sales_tax"] ∧
    (ordersCreateAction ⟨tid, tdate, tc2, tz2, ts2, am, sh, stx,
        none, none, none, none, none, false⟩ remote).requests.length = 1 ∧
    ordersUpdateParams uid ⟨none, none, none, none, false⟩ = [("transaction_id", .str uid)] ∧
    (ordersUpdateAction uid ⟨none, none, none, none, false⟩ remote).requests.length = 1 ∧
    paramKeys (refundsCreateParams ⟨rid, rdate, rref, rc, rz, rs, ra, rsh, rst, false⟩) =
      ["transaction_id", "transaction_date", "transaction_reference_id", "to_country",
       "to_zip", "to_state", "amount", "shipping", "sales_tax"] ∧
    (refundsCreateAction ⟨rid, rdate, rref, rc, rz, rs, ra, rsh, rst, false⟩
        remote).requests.length = 1 ∧
    validateAddressParams ⟨country, none, none, none, none, false⟩ =
      [("country", .str country)] ∧
    (validateAddressAction ⟨country, none, none, none, none, false⟩
        remote).requests.length = 1 ∧
    (validateVatAction vat false remote).requests =
      [⟨"GET", "/validation", none, [("vat", .str vat)]⟩] := by
  refine ⟨rfl, rfl, ?_, rfl, ?_, rfl, ?_, rfl, ?_, rfl, ?_, rfl, ?_, rfl, ?_, rfl, ?_, ?_⟩
  · cases remote <;> rfl
  · cases remote <;> rfl
  · rw [ordersListAction_requests]; rfl
  · rw [refundsListAction_requests]; rfl
  · cases remote <;> rfl
  · cases remote <;> rfl
  · cases remote <;> rfl
  · cases remote <;> rfl
  · cases remote <;> rfl

/- ── Claim C6 ───────────────────────────────────────────────────────── -/

/-- Scenario A's invocation: origin 94025/CA, destination 10001/NY,
amount `100.00`, shipping `5.00`, human output. -/
def scenarioAOptions : TaxCalculateOptions :=
  ⟨"US", "94025", "CA", "US", "10001", "NY", "100.00", "5.00",
   none, none, none, none, false⟩

/-- Scenario A's mocked `tax` object, with `amount_to_collect` 8.88. -/
def scenarioATax : JsValue :=
  .obj [("taxable_amount", .num (.ofInt 105)),
        ("rate", .num ⟨888, 4⟩),
        ("freight_taxable", .bool true),
        ("amount_to_collect", .num ⟨888, 2⟩),
        ("has_nexus", .bool true)]

/-- The full observable outcome of scenario A. -/
def scenarioAOutcome : ActionOutcome :=
  taxCalculateAction scenarioAOptions (.success (.obj [("tax", scenarioATax)]))

set_option maxRecDepth 40000 in
/-- C6: scenario A issues exactly one POST to `/taxes` whose body holds
the four address fields as strings and amount 100 / shipping 5 as
numbers, and the human output contains the literal substring `$8.88`. -/
theorem scenarioA_taxCalculate :
    scenarioAOutcome.requests =
      [⟨"POST", "/taxes",
        some (.obj
          [("from_country", .str "US"),
           ("from_zip", .str "94025"),
           ("from_state", .str "CA"),
           ("to_country", .str "US"),
           ("to_zip", .str "10001"),
           ("to_state", .str "NY"),
           ("amount", .num (.ofInt 100)),
           ("shipping", .num (.ofInt 5))]),
        []⟩] ∧
    strIncludes (String.intercalate "\n" scenarioAOutcome.output) "$8.88" = true :=
  ⟨rfl, rfl⟩

/- ── Claim C7 ───────────────────────────────────────────────────────── -/

/-- A remote response whose envelope field `k` is an empty array. -/
def emptyListData (k : String) : JsValue := .obj [(k, .arr [])]

set_option maxRecDepth 4000 in
/-- C7: for every list-returning command, an empty result list is not an
error — each invocation exits with status 0, human mode prints a
non-error zero-results indicator (`No results found.` from `printTable`,
the dedicated `No orders/refunds found` sentinels, or `validate
address`'s `Found 0 address match(es)` count line), and `--json` mode
prints the empty structured list `[]`. -/
theorem emptyList_noResults :
    ordersListAction ⟨none, none, none, false⟩ (.success (emptyListData "orders")) =
      ⟨[⟨"GET", "/transactions/orders", none, []⟩],
       ["Found 0 order(s)", "No orders found for the given criteria."], 0⟩ ∧
    ordersListAction ⟨none, none, none, true⟩ (.success (emptyListData "orders")) =
      ⟨[⟨"GET", "/transactions/orders", none, []⟩], ["Found 0 order(s)", "[]"], 0⟩ ∧
    refundsListAction ⟨none, none, false⟩ (.success (emptyListData "refunds")) =
      ⟨[⟨"GET", "/transactions/refunds", none, []⟩],
       ["Found 0 refund(s)", "No refunds found for the given criteria."], 0⟩ ∧
    refundsListAction ⟨none, none, true⟩ (.success (emptyListData "refunds")) =
      ⟨[⟨"GET", "/transactions/refunds", none, []⟩], ["Found 0 refund(s)", "[]"], 0⟩ ∧
    nexusListAction false (.success (emptyListData "regions")) =
      ⟨[⟨"GET", "/nexus/regions", none, []⟩],
       ["Found 0 nexus region(s)", "No results found."], 0⟩ ∧
    nexusListAction true (.success (emptyListData "regions")) =
      ⟨[⟨"GET", "/nexus/regions", none, []⟩], ["Found 0 nexus region(s)", "[]"], 0⟩ ∧
    categoriesListAction false (.success (emptyListData "categories")) =
      ⟨[⟨"GET", "/categories", none, []⟩], ["Found 0 categories", "No results found."], 0⟩ ∧
    categoriesListAction true (.success (emptyListData "categories")) =
      ⟨[⟨"GET", "/categories", none, []⟩], ["Found 0 categories", "[]"], 0⟩ ∧
    ratesSummaryAction false (.success (emptyListData "summary_rates")) =
      ⟨[⟨"GET", "/summary_rates", none, []⟩],
       ["Retrieved 0 region summaries", "No results found."], 0⟩ ∧
    ratesSummaryAction true (.success (emptyListData "summary_rates")) =
      ⟨[⟨"GET", "/summary_rates", none, []⟩], ["Retrieved 0 region summaries", "[]"], 0⟩ ∧
    validateAddressAction ⟨"US", none, none, none, none, false⟩
        (.success (emptyListData "addresses")) =
      ⟨[⟨"POST", "/addresses/validate", some (.obj [("country", .str "US")]), []⟩],
       ["Found 0 address match(es)"], 0⟩ ∧
    validateAddressAction ⟨"US", none, none, none, none, true⟩
        (.success (emptyListData "addresses")) =
      ⟨[⟨"POST", "/addresses/validate", some (.obj [("country", .str "US")]), []⟩],
       ["Found 0 address match(es)", "[]"], 0⟩ :=
  ⟨rfl, rfl, rfl, rfl, rfl, rfl, rfl, rfl, rfl, rfl, rfl, rfl⟩

/-- `a || b` keeps a truthy left operand. -/
theorem jsOrV_pos (a b : JsValue) (h : jsTruthy a = true) : jsOrV a b = a := by
  simp [jsOrV, h]

/-- `a || b` falls through a falsy left operand. -/
theorem jsOrV_neg (a b : JsValue) (h : jsTruthy a = false) : jsOrV a b = b := by
  simp [jsOrV, h]

/- ── Claim C3 ───────────────────────────────────────────────────────── -/

/-- C3: error translation is exhaustive over exactly three kinds.  A
response present yields an `ApiError` with that status and a message
from the body's truthy `detail`, else its truthy `error`, else the
serialized body; a request without a response yields `NetworkError`;
anything else yields `RequestError` with the underlying message; and
every API operation issues exactly one request — nothing is retried. -/
theorem handleError_taxonomy (e : AxiosError) :
    (∀ s d m, e.response = some (s, d) → jsGet d "detail" = .str m → m ≠ "" →
      handleError e = .apiError s m) ∧
    (∀ s d m, e.response = some (s, d) → jsTruthy (jsGet d "detail") = false →
      jsGet d "error" = .str m → m ≠ "" → handleError e = .apiError s m) ∧
    (∀ s d fb, e.response = some (s, d) → jsTruthy (jsGet d "detail") = false →
      jsTruthy (jsGet d "error") = false → jsonStringifyCompact d = some fb →
      handleError e = .apiError s fb) ∧
    (e.response = none → e.request = true → handleError e = .networkError) ∧
    (e.response = none → e.request = false → handleError e = .requestError e.message) ∧
    (∀ (req : HttpRequest) (u : String) (r : RemoteOutcome), (apiOperation req u r).1 = [req]) := by
  refine ⟨?_, ?_, ?_, ?_, ?_, ?_⟩
  · intro s d m hr hd hm
    simp only [handleError, hr]
    rw [hd, jsOrV_pos _ _ (by simp [jsTruthy, hm])]
    rfl
  · intro s d m hr hdf he hm
    simp only [handleError, hr]
    rw [jsOrV_neg _ _ hdf, he, jsOrV_pos _ _ (by simp [jsTruthy, hm])]
    rfl
  · intro s d fb hr hdf hef hj
    simp only [handleError, hr, hj]
    rw [jsOrV_neg _ _ hdf, jsOrV_neg _ _ hef]
    rfl
  · intro hr hq
    simp [handleError, hr, hq]
  · intro hr hq
    simp [handleError, hr, hq]
  · intro req u r
    rfl

/-- A concrete 404 whose body carries a `detail` field. -/
def c3SampleError : AxiosError :=
  ⟨some (404, .obj [("detail", .str "Resource can not be found")]), true, "boom"⟩

/-- Witness for C3 at a concrete 404 error. -/
theorem handleError_taxonomy_witness :
    c3SampleError.response = some (404, .obj [("detail", .str "Resource can not be found")]) ∧
    handleError c3SampleError = .apiError 404 "Resource can not be found" :=
  ⟨rfl,
   (handleError_taxonomy c3SampleError).1 404 _ "Resource can not be found" rfl rfl
     (by decide)⟩

/- ── Claim C4 ───────────────────────────────────────────────────────── -/

/-- A store holding a persisted key and no persisted base URL. -/
def c4Store : StoredConfig := ⟨some "sk_stored_key_01", none⟩

/-- C4 counterexample: with `TAXJAR_API_KEY` *set* to the empty string
and a stored key present, `getApiKey` returns the stored key, not the
environment value — JS `||` treats the set-but-empty variable as absent,
so the claim's "whenever the variable is set" is too strong. -/
theorem getApiKey_emptyEnv_counterexample :
    getApiKeyModel (some "") c4Store = .key "sk_stored_key_01" ∧
    CredResult.key "sk_stored_key_01" ≠ CredResult.key "" :=
  ⟨rfl, by decide⟩

/-- C4 as amended: `getApiKey` returns the environment key whenever
`TAXJAR_API_KEY` is set to a non-empty value (a set-but-empty value
behaves like unset), otherwise the persisted key when one is stored;
when neither source yields a key it exits with status 1 printing
guidance that mentions `config set --api-key`; the base URL prefers a
non-empty `TAXJAR_BASE_URL`, then the persisted value, and defaults to
the production endpoint when neither is set. -/
theorem getCredential_amended (env envBase : Option String) (c : StoredConfig) :
    (∀ e, env = some e → e ≠ "" → getApiKeyModel env c = .key e) ∧
    (envStr env = "" → confGetApiKey c ≠ "" →
      getApiKeyModel env c = .key (confGetApiKey c)) ∧
    (envStr env = "" → confGetApiKey c = "" →
      getApiKeyModel env c = .exitError 1 noApiKeyMessages) ∧
    strIncludes (String.intercalate "\n" noApiKeyMessages) "config set --api-key" = true ∧
    (∀ b, envBase = some b → b ≠ "" → getBaseUrlModel envBase c = b) ∧
    (envStr envBase = "" → c.baseUrl = none →
      getBaseUrlModel envBase c = "https://api.taxjar.com/v2") ∧
    (envStr envBase = "" → ∀ u, c.baseUrl = some u → getBaseUrlModel envBase c = u) := by
  refine ⟨?_, ?_, ?_, rfl, ?_, ?_, ?_⟩
  · intro e he hene
    simp [getApiKeyModel, jsOrStr, envStr, he, hene]
  · intro h1 h2
    simp [getApiKeyModel, jsOrStr, h1, h2]
  · intro h1 h2
    simp [getApiKeyModel, jsOrStr, h1, h2]
  · intro b hb hbne
    simp [getBaseUrlModel, jsOrStr, envStr, hb, hbne]
  · intro h1 h2
    simp [getBaseUrlModel, confGetBaseUrl, jsOrStr, h1, h2]
  · intro h1 u hu
    simp [getBaseUrlModel, confGetBaseUrl, jsOrStr, h1, hu]

/-- Witness for C4: a non-empty environment key wins over the store. -/
theorem getCredential_amended_witness :
    ((some "sk_env_override" : Option String) = some "sk_env_override" ∧
      "sk_env_override" ≠ "") ∧
    getApiKeyModel (some "sk_env_override") c4Store = .key "sk_env_override" :=
  ⟨⟨rfl, by decide⟩,
   (getCredential_amended (some "sk_env_override") none c4Store).1 "sk_env_override" rfl
     (by decide)⟩

/- ── Claim C5 ───────────────────────────────────────────────────────── -/

/-- A store whose key's middle four characters are themselves `****`. -/
def c5RawStore : StoredConfig := ⟨some "abcd****wxyz", none⟩

/-- C5 counterexample: for the stored key `abcd****wxyz` (length 12,
≥ 8), `show()` returns the raw key itself — the masked view coincides
with the key, so "never returns the raw key" fails. -/
theorem showConfig_rawKey_counterexample :
    8 ≤ ("abcd****wxyz" : String).length ∧
    (showConfigModel none none c5RawStore).apiKey = "abcd****wxyz" :=
  ⟨by decide, rfl⟩

/-- C5 as amended: for a stored key of length ≥ 8, the masked view is
exactly the key's first four characters, then the fixed mask `****`
(the same string for every key length), then the key's last four
characters — and it equals the raw key only in the unavoidable case
that the key is 12 characters long with `****` as its middle four. -/
theorem showConfig_mask_amended (env envBase : Option String) (c : StoredConfig) (k : String)
    (hk : confGetApiKey c = k) (h8 : 8 ≤ k.length) :
    (showConfigModel env envBase c).apiKey.data =
      k.data.take 4 ++ maskString.data ++ k.data.drop (k.data.length - 4) ∧
    (showConfigModel env envBase c).apiKey.length = 12 ∧
    (showConfigModel env envBase c).apiKey.data.take 4 = k.data.take 4 ∧
    (showConfigModel env envBase c).apiKey.data.drop 8 = k.data.drop (k.data.length - 4) ∧
    ((showConfigModel env envBase c).apiKey.data.drop 4).take 4 = maskString.data ∧
    ((showConfigModel env envBase c).apiKey = k →
      k.length = 12 ∧ (k.data.drop 4).take 4 = maskString.data) := by
  have hkne : k ≠ "" := by
    intro h
    rw [h] at h8
    have : ("" : String).length = 0 := rfl
    omega
  have hshow : (showConfigModel env envBase c).apiKey = maskKey k := by
    simp [showConfigModel, jsOrStr, hk, hkne]
  have h8' : 8 ≤ k.data.length := h8
  have hdata : (showConfigModel env envBase c).apiKey.data =
      k.data.take 4 ++ maskString.data ++ k.data.drop (k.data.length - 4) := by
    rw [hshow, maskKey_data]
  have hlen4 : (k.data.take 4).length = 4 := by
    rw [List.length_take]; omega
  have hmask4 : maskString.data.length = 4 := rfl
  have hdrop4 : (k.data.drop (k.data.length - 4)).length = 4 := by
    rw [List.length_drop]; omega
  have hlen : (showConfigModel env envBase c).apiKey.length = 12 := by
    show (showConfigModel env envBase c).apiKey.data.length = 12
    rw [hdata, List.length_append, List.length_append, hlen4, hmask4, hdrop4]
  have htake : (showConfigModel env envBase c).apiKey.data.take 4 = k.data.take 4 := by
    rw [hdata, List.append_assoc]
    exact List.take_left' hlen4
  have hdrop8 : (showConfigModel env envBase c).apiKey.data.drop 8 =
      k.data.drop (k.data.length - 4) := by
    have hAM : (k.data.take 4 ++ maskString.data).length = 8 := by
      rw [List.length_append, hlen4, hmask4]
    rw [hdata]
    exact List.drop_left' hAM
  have hmid : ((showConfigModel env envBase c).apiKey.data.drop 4).take 4 = maskString.data := by
    rw [hdata, List.append_assoc, List.drop_left' hlen4]
    exact List.take_left' hmask4
  refine ⟨hdata, hlen, htake, hdrop8, hmid, ?_⟩
  intro heq
  refine ⟨by rw [← heq]; exact hlen, ?_⟩
  have hd : k.data = (showConfigModel env envBase c).apiKey.data := by rw [heq]
  rw [hd]
  exact hmid

/-- A store with a 16-character persisted key. -/
def c5Store : StoredConfig := ⟨some "sk_test_abcdefgh", none⟩

/-- Witness for C5's amended masking law at a 16-character stored key. -/
theorem showConfig_mask_amended_witness :
    (confGetApiKey c5Store = "sk_test_abcdefgh" ∧ 8 ≤ ("sk_test_abcdefgh" : String).length) ∧
    (showConfigModel none none c5Store).apiKey.data =
      ("sk_test_abcdefgh" : String).data.take 4 ++ maskString.data ++
        ("sk_test_abcdefgh" : String).data.drop (("sk_test_abcdefgh" : String).data.length - 4) :=
  ⟨⟨rfl, by decide⟩,
   (showConfig_mask_amended none none c5Store "sk_test_abcdefgh" rfl (by decide)).1⟩

/- ── Claim C8 ───────────────────────────────────────────────────────── -/

/-- C8: when both a non-empty environment key and a non-empty stored key
are present, `showConfig` masks the *stored* key while `getApiKey` hands
requests the *environment* key — the precedence orders are reversed, so
the display can show a different credential than the one used. -/
theorem showConfig_usesStoredKey (env envBase : Option String) (c : StoredConfig) (e : String)
    (he : env = some e) (hene : e ≠ "") (hs : confGetApiKey c ≠ "") :
    (showConfigModel env envBase c).apiKey = maskKey (confGetApiKey c) ∧
    getApiKeyModel env c = .key e := by
  constructor
  · simp [showConfigModel, jsOrStr, hs]
  · simp [getApiKeyModel, jsOrStr, envStr, he, hene]

/-- A store holding a persisted key differing from the environment key. -/
def c8Store : StoredConfig := ⟨some "sk_live_stored99", none⟩

/-- Witness for C8: the masked view comes from the stored key, requests
use the environment key, and the two masked views differ. -/
theorem showConfig_usesStoredKey_witness :
    ("sk_env_different" ≠ "" ∧ confGetApiKey c8Store ≠ "") ∧
    ((showConfigModel (some "sk_env_different") none c8Store).apiKey =
        maskKey (confGetApiKey c8Store) ∧
      getApiKeyModel (some "sk_env_different") c8Store = .key "sk_env_different") ∧
    maskKey (confGetApiKey c8Store) ≠ maskKey "sk_env_different" :=
  ⟨⟨by decide, by decide⟩,
   showConfig_usesStoredKey (some "sk_env_different") none c8Store "sk_env_different" rfl
     (by decide) (by decide),
   by decide⟩

/- ── Claim C9 ───────────────────────────────────────────────────────── -/

/-- C9: for a non-empty stored key of length at most 8, every character
of the key appears in `show()`'s masked view — the revealed 4-character
head and tail slices jointly cover the whole key, so masking hides
nothing for short keys. -/
theorem shortKey_maskCoversAll (k : String) (hne : k ≠ "") (h8 : k.length ≤ 8)
    (c : Char) (hc : c ∈ k.data) :
    c ∈ (showConfigModel none none ⟨some k, none⟩).apiKey.data := by
  have hshow : (showConfigModel none none ⟨some k, none⟩).apiKey = maskKey k := by
    simp [showConfigModel, confGetApiKey, jsOrStr, hne]
  rw [hshow, maskKey_data]
  have h8' : k.data.length ≤ 8 := h8
  rw [← List.take_append_drop 4 k.data] at hc
  rcases List.mem_append.mp hc with h | h
  · exact List.mem_append_left _ (List.mem_append_left _ h)
  · refine List.mem_append_right _ ?_
    have hdd : k.data.drop 4 =
        (k.data.drop (k.data.length - 4)).drop (4 - (k.data.length - 4)) := by
      rw [List.drop_drop]
      congr 1
      omega
    rw [hdd] at h
    exact List.drop_subset _ _ h

/-- Witness for C9 at the six-character key `key123`. -/
theorem shortKey_maskCoversAll_witness :
    (("key123" : String) ≠ "" ∧ ("key123" : String).length ≤ 8 ∧
      '1' ∈ ("key123" : String).data) ∧
    '1' ∈ (showConfigModel none none ⟨some "key123", none⟩).apiKey.data :=
  ⟨⟨by decide, by decide, by decide⟩,
   shortKey_maskCoversAll "key123" (by decide) (by decide) '1' (by decide)⟩

/- ── Claim C10 ──────────────────────────────────────────────────────── -/

/-- C10: `rates summary` columns keyed by the literal property names
`minimum_rate.rate` / `average_rate.rate` find nothing on a summary row
(whose rate data sits in nested objects), so every cell of the Min Rate
and Avg Rate columns renders as the empty string padded to the label
width — while the data is present under proper nested traversal. -/
theorem ratesSummary_minAvgColumnsEmpty (s : SummaryRate) (rows : List SummaryRate) :
    jsGet (summaryRateJs s) "minimum_rate.rate" = .undefined ∧
    jsGet (summaryRateJs s) "average_rate.rate" = .undefined ∧
    tableCell (summaryRateJs s) "minimum_rate.rate" = "" ∧
    tableCell (summaryRateJs s) "average_rate.rate" = "" ∧
    jsGet (jsGet (summaryRateJs s) "minimum_rate") "rate" = .num s.minimum_rate.rate ∧
    colWidth (rows.map summaryRateJs) "minimum_rate.rate" "Min Rate" =
      ("Min Rate" : String).length ∧
    colWidth (rows.map summaryRateJs) "average_rate.rate" "Avg Rate" =
      ("Avg Rate" : String).length ∧
    padEnd (tableCell (summaryRateJs s) "minimum_rate.rate") ("Min Rate" : String).length =
      "        " := by
  refine ⟨rfl, rfl, rfl, rfl, rfl, ?_, ?_, rfl⟩
  · refine colWidth_of_cells_empty _ _ _ ?_
    intro r hr
    obtain ⟨t, _, rfl⟩ := List.mem_map.mp hr
    rfl
  · refine colWidth_of_cells_empty _ _ _ ?_
    intro r hr
    obtain ⟨t, _, rfl⟩ := List.mem_map.mp hr
    rfl
